import Mathlib

/-!
Verification of the job-pipeline orchestrator of the youtube-content-classifier
repository: a shallow embedding of `analyze_video_task` (src/server/app/worker/tasks.py),
the `WhisperTranscriber` resource lifecycle (src/server/app/services/transcriber.py),
`MediaProcessor.convert_to_wav` (src/server/app/services/media_proc.py) and the
path handling of `YouTubeDownloader.download_audio_only`
(src/server/app/services/downloader.py), together with theorems settling the
spec claims about state transitions, write ordering, artifact cleanup and
transcriber resource release.

External capabilities (yt-dlp, ffmpeg, the whisper model, the LLM analyzer) are
opaque: their outcomes are supplied by an `Env` record, one outcome per call the
orchestrator makes.  Store commits are modelled as always succeeding (a
`StoreError` is out of scope of the claims, flagged by the spec as a known gap).
-/

deriving instance DecidableEq for Except

namespace YCC

/-- Job status strings used by the code: "pending", "processing", "completed",
"failed" (models.py line 21, tasks.py lines 58, 137, 162). -/
inductive Status where
  | pending
  | processing
  | completed
  | failed
deriving DecidableEq, Repr

/-- Metadata dictionary built by `YouTubeDownloader.get_video_info`
(downloader.py lines 45-54).  Every key is present; a value may be Python
`None` when yt-dlp supplied none, hence the `Option` fields. -/
structure VideoInfo where
  vid : Option String
  title : Option String
  duration : Option Nat
  uploader : Option String
  upload_date : Option String
  view_count : Option Nat
  thumbnail : Option String
  description : String
deriving DecidableEq, Repr

/-- One timestamped transcript segment (transcriber.py lines 71-78).  The
source carries float second offsets; the numeric values are opaque payload for
the orchestrator, modelled as integers. -/
structure Segment where
  start : Int
  stop : Int
  text : String
deriving DecidableEq, Repr

/-- Raw result dictionary returned by the external `whisper` model's
`transcribe` call (transcriber.py line 64): `text` is always read with `[]`,
`language` and `segments` with `.get` and a default. -/
structure WhisperRaw where
  text : String
  language : Option String
  segments : List Segment
deriving DecidableEq, Repr

/-- Projected transcription dictionary returned by
`WhisperTranscriber.transcribe` (transcriber.py lines 68-79). -/
structure Transcription where
  text : String
  language : String
  segments : List Segment
deriving DecidableEq, Repr

/-- Analysis verdict returned by the external `LLMAnalyzer.analyze_content`
capability, as consumed in tasks.py lines 115-119 and stored at line 132. -/
structure Analysis where
  ai_generated_score : Nat
  dangerous_content : Bool
  danger_categories : List String
  danger_severity : Option String
deriving DecidableEq, Repr

/-- The combined result payload assembled in tasks.py lines 125-134. -/
structure FinalResult where
  video_info : VideoInfo
  transcription : Transcription
  analysis : Analysis
  processed_at : Nat
deriving DecidableEq, Repr

/-- The `AnalysisJob` ORM row (models.py lines 11-34). -/
structure Job where
  youtube_url : String
  video_title : Option String
  status : Status
  result : Option FinalResult
  error_message : Option String
  created_at : Nat
  completed_at : Option Nat
deriving DecidableEq, Repr

/-- The durable keyed job store, keyed by the integer primary key. -/
abbrev Store := Nat → Option Job

/-- Read a row by id (`db.query(AnalysisJob).filter(AnalysisJob.id == job_id).first()`). -/
def Store.get (s : Store) (i : Nat) : Option Job := s i

/-- Commit the current state of row `i` (`self.db.commit()` after attribute
assignments on the loaded row). -/
def Store.update (s : Store) (i : Nat) (j : Job) : Store :=
  fun k => if k = i then some j else s k

/-- One committed store write, in commit order.  Each constructor carries the
fields that the corresponding `self.db.commit()` makes durable at once:
tasks.py line 59 (status=processing), line 73 (video_title), line 139
(result, status=completed, completed_at), line 165 (status=failed,
error_message, completed_at). -/
inductive WriteEvent where
  | processingWrite
  | titleWrite (title : Option String)
  | completedWrite (result : FinalResult) (completed_at : Nat)
  | failedWrite (error_message : String) (completed_at : Nat)
deriving DecidableEq, Repr

/-- The status a write makes visible, if it changes the status column. -/
def writeStatus : WriteEvent → Option Status
  | .processingWrite => some .processing
  | .titleWrite _ => none
  | .completedWrite _ _ => some .completed
  | .failedWrite _ _ => some .failed

/-- Status values a poller of the row can observe, in order: the initial
status followed by every status-changing committed write. -/
def statusTrace (init : Status) (ws : List WriteEvent) : List Status :=
  init :: ws.filterMap writeStatus

/-- Rank of a write used to state the observed write ordering:
processing entry, then title, then terminal. -/
def writeRank : WriteEvent → Nat
  | .processingWrite => 0
  | .titleWrite _ => 1
  | .completedWrite _ _ => 2
  | .failedWrite _ _ => 2

/-- Whether a write is the terminal write. -/
def WriteEvent.isTerminal : WriteEvent → Bool
  | .completedWrite _ _ => true
  | .failedWrite _ _ => true
  | _ => false

/-- Last index at which `c` occurs in `cs`, if any (Python `str.rfind`). -/
def lastIdxOf (c : Char) (cs : List Char) : Option Nat :=
  ((List.range cs.length).filter (fun i => cs.get? i == some c)).getLast?

/-- Root part of `os.path.splitext`: split at the last dot when it lies after
the last path separator and some non-dot character of the basename precedes
it; otherwise return the path unchanged (posixpath.splitext). -/
def splitextRoot (p : String) : String :=
  let cs := p.data
  let start := match lastIdxOf '/' cs with
    | some i => i + 1
    | none => 0
  match lastIdxOf '.' cs with
  | none => p
  | some d =>
    if Nat.ble start d &&
        (List.range d).any (fun k => Nat.ble start k && (cs.get? k != some '.')) then
      ⟨cs.take d⟩
    else p

/-- Whether string `s` starts with the character `c`. -/
def headIs (c : Char) (s : String) : Bool :=
  s.data.head? == some c

/-- Whether string `s` ends with the character `c`. -/
def lastIs (c : Char) (s : String) : Bool :=
  s.data.getLast? == some c

/-- `os.path.join` for one component (posixpath semantics: an absolute second
component discards the first; no separator doubled). -/
def pathJoin (a b : String) : String :=
  if headIs '/' b then b
  else if a == "" || lastIs '/' a then a ++ b
  else a ++ "/" ++ b

/-- Path of the audio file `YouTubeDownloader.download_audio_only` reports:
`os.path.join(self.temp_dir, f"{video_id}.mp3")` (downloader.py line 134). -/
def audioFilename (temp_dir video_id : String) : String :=
  pathJoin temp_dir (video_id ++ ".mp3")

/-- Output path of `MediaProcessor.convert_to_wav` when called without
`output_path`: `os.path.splitext(audio_path)[0] + ".wav"`
(media_proc.py lines 51-53). -/
def wavFilename (audio_path : String) : String :=
  splitextRoot audio_path ++ ".wav"

/-- `MediaProcessor.convert_to_wav(audio_path)` (media_proc.py lines 39-67):
computes the output path and runs ffmpeg; an `ffmpeg.Error` is re-raised as
`Exception("FFmpeg error during WAV conversion: <stderr>")`.  The ffmpeg
outcome is external, supplied as `ffmpeg_ok`/`ffmpeg_stderr`. -/
def convert_to_wav (ffmpeg_ok : Bool) (ffmpeg_stderr : String) (audio_path : String) :
    Except String String :=
  let output_path := wavFilename audio_path
  if ffmpeg_ok then .ok output_path
  else .error ("FFmpeg error during WAV conversion: " ++ ffmpeg_stderr)

/-- `WhisperTranscriber` (transcriber.py lines 12-118): `model` is `None`
until `load_model` runs; the loaded model value is opaque and represented by
its size string. -/
structure WhisperTranscriber where
  model_size : String
  model : Option String
  device : String
deriving DecidableEq, Repr

/-- `WhisperTranscriber.__init__` (transcriber.py lines 15-26): no model
loaded, device chosen from cuda availability. -/
def WhisperTranscriber.init (model_size : String) (cuda_available : Bool) :
    WhisperTranscriber :=
  { model_size := model_size
    model := none
    device := if cuda_available then "cuda" else "cpu" }

/-- `WhisperTranscriber.load_model` (transcriber.py lines 28-33): lazy; loads
only when `self.model is None`. -/
def WhisperTranscriber.load_model (t : WhisperTranscriber) : WhisperTranscriber :=
  if t.model.isSome then t else { t with model := some t.model_size }

/-- `WhisperTranscriber.unload_model` (transcriber.py lines 111-118): drops
the model when one is loaded, otherwise does nothing; never raises. -/
def WhisperTranscriber.unload_model (t : WhisperTranscriber) : WhisperTranscriber :=
  if t.model.isSome then { t with model := none } else t

/-- `WhisperTranscriber.transcribe` (transcriber.py lines 35-79): always runs
`load_model` first, then the external `self.model.transcribe` call, whose
outcome `raw` is supplied by the environment; on success it projects
`text`, `language` (default "unknown") and the `segments` list (default []).
Returns the transcriber's state after the call together with the outcome. -/
def WhisperTranscriber.transcribe (t : WhisperTranscriber) (audio_path : String)
    (raw : Except String WhisperRaw) :
    WhisperTranscriber × Except String Transcription :=
  let _ := audio_path
  let t := t.load_model
  match raw with
  | .error e => (t, .error e)
  | .ok r =>
      (t, .ok { text := r.text
                language := r.language.getD "unknown"
                segments := r.segments })

/-- Outcomes of the external calls one orchestrator execution makes, plus the
ambient configuration it reads.  One field per call site in
`analyze_video_task`: yt-dlp metadata extraction (tasks.py line 71), yt-dlp
audio download returning the video id used for the reported path (line 79,
downloader.py lines 130-134), the ffmpeg conversion (line 87), the whisper
model call (line 93), the LLM analysis (line 109), the three
`datetime.utcnow()` reads (lines 133, 138, 164), and whether each `os.remove`
raises (lines 144-147).  A `raise` anywhere inside a stage, including the
celery soft-time-limit exception, is an `.error` outcome carrying `str(e)`. -/
structure Env where
  whisper_model_size : String
  cuda_available : Bool
  temp_dir : String
  video_info : Except String VideoInfo
  download_vid : Except String String
  ffmpeg_ok : Bool
  ffmpeg_stderr : String
  whisper : Except String WhisperRaw
  analysis : Except String Analysis
  processed_now : Nat
  completed_now : Nat
  failed_now : Nat
  remove_raises : String → Bool

/-- Local filesystem state: the set of artifact paths that exist, as a list. -/
abbrev Fs := List String

/-- `os.remove p` effect on the filesystem when it succeeds. -/
def removePath (p : String) (fs : Fs) : Fs := fs.filter (· ≠ p)

/-- The cleanup block (tasks.py lines 143-150): inside one `try`, remove
`audio_path` if it exists, then `wav_path` if it exists; the first `os.remove`
that raises aborts the block (the exception is caught and ignored), leaving
every not-yet-removed file in place. -/
def cleanupFiles (remove_raises : String → Bool) (audio_path wav_path : String)
    (fs : Fs) : Fs :=
  if fs.contains audio_path then
    if remove_raises audio_path then fs
    else
      let fs1 := removePath audio_path fs
      if fs1.contains wav_path then
        if remove_raises wav_path then fs1 else removePath wav_path fs1
      else fs1
  else
    if fs.contains wav_path then
      if remove_raises wav_path then fs else removePath wav_path fs
    else fs

/-- Everything observable when `analyze_video_task` returns control: the
store, the filesystem, the state of the transcriber constructed during the run
(`none` when the transcription stage never began), the value returned or the
exception re-raised to celery, and the ordered list of committed writes. -/
structure ExecResult where
  store : Store
  fs : Fs
  transcriber : Option WhisperTranscriber
  retval : Except String FinalResult
  writes : List WriteEvent

/-- The `except Exception` handler (tasks.py lines 158-168): set
status="failed", error_message=str(e), completed_at=utcnow, commit, and
re-raise.  It touches no other field, deletes no file, and does not release
the transcriber. -/
def failHandler (env : Env) (store : Store) (job_id : Nat) (job : Job) (fs : Fs)
    (transcriber : Option WhisperTranscriber) (writes : List WriteEvent)
    (msg : String) : ExecResult :=
  let job := { job with
    status := .failed
    error_message := some msg
    completed_at := some env.failed_now }
  { store := store.update job_id job
    fs := fs
    transcriber := transcriber
    retval := .error msg
    writes := writes ++ [.failedWrite msg env.failed_now] }

/-- `analyze_video_task(self, job_id)` (tasks.py lines 36-168).  Mirrors the
source line by line: load the row (raising `ValueError` before the `try` block
when absent); commit status="processing"; fetch metadata and commit
`video_title`; download audio (the reported mp3 path starts existing);
convert to WAV (the wav file starts existing); construct the transcriber and
transcribe; `unload_model`; analyze; assemble `final_result` with
`processed_at`; commit result+status+completed_at in one write; then run the
guarded cleanup block and return.  Any stage exception flows to
`failHandler`. -/
def analyze_video_task (env : Env) (store0 : Store) (fs0 : Fs) (job_id : Nat) :
    ExecResult :=
  match store0.get job_id with
  | none =>
      { store := store0
        fs := fs0
        transcriber := none
        retval := .error ("Job " ++ toString job_id ++ " not found")
        writes := [] }
  | some job0 =>
    let job1 := { job0 with status := .processing }
    let store1 := store0.update job_id job1
    let w1 : List WriteEvent := [.processingWrite]
    match env.video_info with
    | .error e => failHandler env store1 job_id job1 fs0 none w1 e
    | .ok info =>
      let job2 := { job1 with video_title := info.title }
      let store2 := store1.update job_id job2
      let w2 := w1 ++ [.titleWrite info.title]
      match env.download_vid with
      | .error e => failHandler env store2 job_id job2 fs0 none w2 e
      | .ok vid =>
        let audio_path := audioFilename env.temp_dir vid
        let fs1 : Fs := audio_path :: fs0
        match convert_to_wav env.ffmpeg_ok env.ffmpeg_stderr audio_path with
        | .error e => failHandler env store2 job_id job2 fs1 none w2 e
        | .ok wav_path =>
          let fs2 : Fs := wav_path :: fs1
          let tr0 := WhisperTranscriber.init env.whisper_model_size env.cuda_available
          let step := tr0.transcribe wav_path env.whisper
          match step.2 with
          | .error e => failHandler env store2 job_id job2 fs2 (some step.1) w2 e
          | .ok transcription =>
            let tr2 := step.1.unload_model
            match env.analysis with
            | .error e => failHandler env store2 job_id job2 fs2 (some tr2) w2 e
            | .ok analysis_result =>
              let final_result : FinalResult :=
                { video_info := info
                  transcription := transcription
                  analysis := analysis_result
                  processed_at := env.processed_now }
              let job3 := { job2 with
                result := some final_result
                status := .completed
                completed_at := some env.completed_now }
              let store3 := store2.update job_id job3
              let w3 := w2 ++ [.completedWrite final_result env.completed_now]
              let fs3 := cleanupFiles env.remove_raises audio_path wav_path fs2
              { store := store3
                fs := fs3
                transcriber := some tr2
                retval := .ok final_result
                writes := w3 }

/-! ### Concrete fixtures used by witnesses and counterexamples -/

/-- A concrete metadata dictionary. -/
def testInfo : VideoInfo :=
  { vid := some "vid01"
    title := some "Test Video"
    duration := some 100
    uploader := some "chan"
    upload_date := some "20240101"
    view_count := some 5
    thumbnail := none
    description := "d" }

/-- A concrete raw whisper result. -/
def testRaw : WhisperRaw :=
  { text := "hello world"
    language := some "en"
    segments := [{ start := 0, stop := 2, text := "hello world" }] }

/-- A concrete analysis verdict. -/
def testAnalysis : Analysis :=
  { ai_generated_score := 40
    dangerous_content := false
    danger_categories := []
    danger_severity := none }

/-- A freshly created pending job row, as the API layer creates it
(endpoints.py lines 90-96, models.py defaults). -/
def testJob : Job :=
  { youtube_url := "https://youtu.be/vid01"
    video_title := none
    status := .pending
    result := none
    error_message := none
    created_at := 10
    completed_at := none }

/-- A store holding exactly the pending job at id 1. -/
def testStore : Store := fun k => if k = 1 then some testJob else none

/-- An environment in which every external call succeeds and no deletion
raises. -/
def envOk : Env :=
  { whisper_model_size := "base"
    cuda_available := false
    temp_dir := "/app/temp"
    video_info := .ok testInfo
    download_vid := .ok "vid01"
    ffmpeg_ok := true
    ffmpeg_stderr := ""
    whisper := .ok testRaw
    analysis := .ok testAnalysis
    processed_now := 100
    completed_now := 101
    failed_now := 102
    remove_raises := fun _ => false }

/-- The environment in which the whisper call raises (e.g. the celery soft
time limit expires during transcription); all earlier calls succeed. -/
def envWhisperFail : Env :=
  { envOk with whisper := .error "SoftTimeLimitExceeded()" }

/-- The result payload assembled from the successful fixtures. -/
def testPayload : FinalResult :=
  { video_info := testInfo
    transcription :=
      { text := "hello world"
        language := "en"
        segments := [{ start := 0, stop := 2, text := "hello world" }] }
    analysis := testAnalysis
    processed_at := 100 }

/-! ### Claim theorems -/

/-- Reading a row back after committing it yields the committed row. -/
theorem store_get_update_self (s : Store) (i : Nat) (j : Job) :
    (s.update i j).get i = some j := by
  simp [Store.get, Store.update]

/-- Claim C9 (confirmed): the transcriber release operation is idempotent and
safe when no resource was ever acquired: `unload_model` on a transcriber whose
model was never loaded leaves the transcriber unchanged (and, being a total
function, raises no error), and calling it twice in a row has the same effect
as calling it once. -/
theorem c9_unload_model_idempotent :
    (∀ t : WhisperTranscriber, t.model = none → t.unload_model = t) ∧
    (∀ t : WhisperTranscriber, t.unload_model.unload_model = t.unload_model) := by
  constructor
  · intro t h
    simp [WhisperTranscriber.unload_model, h]
  · intro t
    cases t with
    | mk ms m d => cases m <;> simp [WhisperTranscriber.unload_model]

/-- Witness for C9: a freshly initialised transcriber has no model loaded and
is left unchanged by `unload_model`. -/
theorem c9_unload_model_idempotent_witness :
    (WhisperTranscriber.init "base" false).unload_model
      = WhisperTranscriber.init "base" false :=
  c9_unload_model_idempotent.1 (WhisperTranscriber.init "base" false) (by decide)

/-- Claim C7 (confirmed): picking up a job id that is absent from the store
raises the NotFound-style `ValueError` before the `try` block begins: the
store and the filesystem are returned unchanged, no write is committed, and
the error carries the `Job <id> not found` message. -/
theorem c7_pickup_notfound_no_mutation (env : Env) (store0 : Store) (fs0 : Fs)
    (job_id : Nat) (h : store0.get job_id = none) :
    analyze_video_task env store0 fs0 job_id =
      { store := store0
        fs := fs0
        transcriber := none
        retval := .error ("Job " ++ toString job_id ++ " not found")
        writes := [] } := by
  simp [analyze_video_task, h]

/-- Witness for C7: id 2 is absent from the one-job test store, and the
execution returns the store and filesystem untouched with no writes. -/
theorem c7_pickup_notfound_no_mutation_witness :
    analyze_video_task envOk testStore [] 2 =
      { store := testStore
        fs := []
        transcriber := none
        retval := .error ("Job " ++ toString 2 ++ " not found")
        writes := [] } :=
  c7_pickup_notfound_no_mutation envOk testStore [] 2 (by decide)

/-- Counterexample to claim C1: in a run whose transcription stage raises
(after the audio was downloaded and transcoded), the orchestrator returns
control with the job terminal-failed and both intermediate artifacts still
present on local storage — the failure path performs no cleanup, contradicting
the claim that artifacts never survive the orchestrator on either path. -/
theorem c1_cleanup_counterexample :
    (analyze_video_task envWhisperFail testStore [] 1).fs
        = ["/app/temp/vid01.wav", "/app/temp/vid01.mp3"] ∧
    (analyze_video_task envWhisperFail testStore [] 1).retval
        = .error "SoftTimeLimitExceeded()" := by
  decide

/-- Counterexample to claim C4: in a run whose transcription stage raises
(e.g. the wall-clock soft time limit), the orchestrator returns with the
transcriber's model still loaded — `unload_model` is only reached on the
success path, so the resource is not released on this failure path. -/
theorem c4_release_counterexample :
    (analyze_video_task envWhisperFail testStore [] 1).transcriber
        = some { model_size := "base", model := some "base", device := "cpu" } ∧
    (analyze_video_task envWhisperFail testStore [] 1).retval
        = .error "SoftTimeLimitExceeded()" := by
  decide

/-- Counterexample to claim C5: the committed write sequence of a fully
successful run is processing entry first, then the title write, then the
terminal write — the title write does not precede the processing-entry write
as the claim orders them. -/
theorem c5_order_counterexample :
    (analyze_video_task envOk testStore [] 1).writes
      = [.processingWrite, .titleWrite (some "Test Video"),
         .completedWrite testPayload 101] := by
  decide

/-- Helper: when no `os.remove` raises and the audio file exists, the cleanup
block leaves neither the audio path nor the wav path on the filesystem. -/
theorem cleanupFiles_no_raise (rr : String → Bool) (audio wav : String) (fs : Fs)
    (hrr : ∀ p, rr p = false) (ha : audio ∈ fs) :
    audio ∉ cleanupFiles rr audio wav fs ∧ wav ∉ cleanupFiles rr audio wav fs := by
  unfold cleanupFiles
  simp only [hrr, removePath, Bool.false_eq_true, if_false]
  split
  · split
    · constructor <;> simp_all [List.mem_filter]
    · rename_i hw
      constructor
      · simp [List.mem_filter]
      · intro hmem
        exact absurd (by simpa using hmem) (by simpa using hw)
  · simp_all

/-- Claim C1 (amended): intermediate artifacts are deleted on the success
path only — after a fully successful run in which no deletion raises, neither
the downloaded audio path nor the transcoded wav path exists; but on a
failure path (here: the transcription stage raising after both artifacts were
created) no deletion is attempted, and both artifacts still exist when the
orchestrator returns. -/
theorem c1_amended_cleanup :
    (∀ (env : Env) (store0 : Store) (fs0 : Fs) (job_id : Nat) (job0 : Job)
        (info : VideoInfo) (vid : String) (raw : WhisperRaw) (ana : Analysis),
        store0.get job_id = some job0 →
        env.video_info = .ok info →
        env.download_vid = .ok vid →
        env.ffmpeg_ok = true →
        env.whisper = .ok raw →
        env.analysis = .ok ana →
        (∀ p, env.remove_raises p = false) →
        audioFilename env.temp_dir vid ∉ (analyze_video_task env store0 fs0 job_id).fs ∧
        wavFilename (audioFilename env.temp_dir vid) ∉
          (analyze_video_task env store0 fs0 job_id).fs) ∧
    (∀ (env : Env) (store0 : Store) (fs0 : Fs) (job_id : Nat) (job0 : Job)
        (info : VideoInfo) (vid : String) (e : String),
        store0.get job_id = some job0 →
        env.video_info = .ok info →
        env.download_vid = .ok vid →
        env.ffmpeg_ok = true →
        env.whisper = .error e →
        (analyze_video_task env store0 fs0 job_id).fs
          = wavFilename (audioFilename env.temp_dir vid)
              :: audioFilename env.temp_dir vid :: fs0) := by
  constructor
  · intro env store0 fs0 job_id job0 info vid raw ana h0 h1 h2 h3 h4 h5 hrr
    have hmem : audioFilename env.temp_dir vid ∈
        wavFilename (audioFilename env.temp_dir vid)
          :: audioFilename env.temp_dir vid :: fs0 := by
      simp
    have h := cleanupFiles_no_raise env.remove_raises
      (audioFilename env.temp_dir vid) (wavFilename (audioFilename env.temp_dir vid))
      (wavFilename (audioFilename env.temp_dir vid)
        :: audioFilename env.temp_dir vid :: fs0) hrr hmem
    simpa [analyze_video_task, h0, h1, h2, h3, h4, h5, convert_to_wav,
           WhisperTranscriber.transcribe, WhisperTranscriber.init,
           WhisperTranscriber.load_model, WhisperTranscriber.unload_model,
           wavFilename] using h
  · intro env store0 fs0 job_id job0 info vid e h0 h1 h2 h3 h4
    simp [analyze_video_task, h0, h1, h2, h3, h4, failHandler, convert_to_wav,
          WhisperTranscriber.transcribe, WhisperTranscriber.init,
          WhisperTranscriber.load_model, wavFilename]

/-- Witness for C1 (amended): in the all-success fixture run neither artifact
path remains, and in the transcription-failure fixture run both artifact
paths remain. -/
theorem c1_amended_cleanup_witness :
    (audioFilename envOk.temp_dir "vid01" ∉ (analyze_video_task envOk testStore [] 1).fs ∧
     wavFilename (audioFilename envOk.temp_dir "vid01") ∉
       (analyze_video_task envOk testStore [] 1).fs) ∧
    (analyze_video_task envWhisperFail testStore [] 1).fs
      = wavFilename (audioFilename envWhisperFail.temp_dir "vid01")
          :: audioFilename envWhisperFail.temp_dir "vid01" :: [] :=
  ⟨c1_amended_cleanup.1 envOk testStore [] 1 testJob testInfo "vid01" testRaw
      testAnalysis (by decide) (by decide) (by decide) (by decide) (by decide)
      (by decide) (fun p => rfl),
   c1_amended_cleanup.2 envWhisperFail testStore [] 1 testJob testInfo "vid01"
      "SoftTimeLimitExceeded()" (by decide) (by decide) (by decide) (by decide)
      (by decide)⟩

/-- Claim C4 (amended): the transcriber's model is released on every
execution in which the transcription stage completes successfully — whether
the analysis stage then succeeds or fails, the transcriber the orchestrator
holds at return has no model loaded; but when the transcription stage itself
raises (including a wall-clock timeout), `unload_model` is never reached and
the model is still loaded at return. -/
theorem c4_amended_release :
    (∀ (env : Env) (store0 : Store) (fs0 : Fs) (job_id : Nat) (job0 : Job)
        (info : VideoInfo) (vid : String) (raw : WhisperRaw),
        store0.get job_id = some job0 →
        env.video_info = .ok info →
        env.download_vid = .ok vid →
        env.ffmpeg_ok = true →
        env.whisper = .ok raw →
        (analyze_video_task env store0 fs0 job_id).transcriber.map
            (fun t => t.model) = some none) ∧
    (∀ (env : Env) (store0 : Store) (fs0 : Fs) (job_id : Nat) (job0 : Job)
        (info : VideoInfo) (vid : String) (e : String),
        store0.get job_id = some job0 →
        env.video_info = .ok info →
        env.download_vid = .ok vid →
        env.ffmpeg_ok = true →
        env.whisper = .error e →
        (analyze_video_task env store0 fs0 job_id).transcriber.map
            (fun t => t.model) = some (some env.whisper_model_size)) := by
  constructor
  · intro env store0 fs0 job_id job0 info vid raw h0 h1 h2 h3 h4
    cases h5 : env.analysis <;>
      simp [analyze_video_task, h0, h1, h2, h3, h4, h5, failHandler, convert_to_wav,
            WhisperTranscriber.transcribe, WhisperTranscriber.init,
            WhisperTranscriber.load_model, WhisperTranscriber.unload_model]
  · intro env store0 fs0 job_id job0 info vid e h0 h1 h2 h3 h4
    simp [analyze_video_task, h0, h1, h2, h3, h4, failHandler, convert_to_wav,
          WhisperTranscriber.transcribe, WhisperTranscriber.init,
          WhisperTranscriber.load_model]

/-- Witness for C4 (amended): released in the all-success fixture run, still
loaded in the transcription-failure fixture run. -/
theorem c4_amended_release_witness :
    (analyze_video_task envOk testStore [] 1).transcriber.map
        (fun t => t.model) = some none ∧
    (analyze_video_task envWhisperFail testStore [] 1).transcriber.map
        (fun t => t.model) = some (some envWhisperFail.whisper_model_size) :=
  ⟨c4_amended_release.1 envOk testStore [] 1 testJob testInfo "vid01" testRaw
      (by decide) (by decide) (by decide) (by decide) (by decide),
   c4_amended_release.2 envWhisperFail testStore [] 1 testJob testInfo "vid01"
      "SoftTimeLimitExceeded()" (by decide) (by decide) (by decide) (by decide)
      (by decide)⟩

/-- Claim C5 (amended): for every picked-up job, the committed writes are
observed in the relative order processing entry first, then the title write
(when one occurs), then the terminal write last — in particular no terminal
write is ever visible before the processing-entry write. -/
theorem c5_amended_write_order (env : Env) (store0 : Store) (fs0 : Fs)
    (job_id : Nat) (job0 : Job) (h0 : store0.get job_id = some job0) :
    (analyze_video_task env store0 fs0 job_id).writes.head?
        = some .processingWrite ∧
    List.Chain' (fun a b => writeRank a < writeRank b)
        (analyze_video_task env store0 fs0 job_id).writes ∧
    ((analyze_video_task env store0 fs0 job_id).writes.getLast?).map
        WriteEvent.isTerminal = some true := by
  cases h1 : env.video_info with
  | error e =>
      simp [analyze_video_task, h0, h1, failHandler, writeRank, WriteEvent.isTerminal]
  | ok info =>
    cases h2 : env.download_vid with
    | error e =>
        simp [analyze_video_task, h0, h1, h2, failHandler, writeRank,
              WriteEvent.isTerminal]
    | ok vid =>
      cases h3 : env.ffmpeg_ok with
      | false =>
          simp [analyze_video_task, h0, h1, h2, h3, failHandler, convert_to_wav,
                writeRank, WriteEvent.isTerminal]
      | true =>
        cases h4 : env.whisper with
        | error e =>
            simp [analyze_video_task, h0, h1, h2, h3, h4, failHandler, convert_to_wav,
                  WhisperTranscriber.transcribe, WhisperTranscriber.init,
                  WhisperTranscriber.load_model, writeRank, WriteEvent.isTerminal]
        | ok raw =>
          cases h5 : env.analysis with
          | error e =>
              simp [analyze_video_task, h0, h1, h2, h3, h4, h5, failHandler,
                    convert_to_wav, WhisperTranscriber.transcribe,
                    WhisperTranscriber.init, WhisperTranscriber.load_model,
                    WhisperTranscriber.unload_model, writeRank, WriteEvent.isTerminal]
          | ok ana =>
              simp [analyze_video_task, h0, h1, h2, h3, h4, h5, convert_to_wav,
                    WhisperTranscriber.transcribe, WhisperTranscriber.init,
                    WhisperTranscriber.load_model, WhisperTranscriber.unload_model,
                    writeRank, WriteEvent.isTerminal]

/-- Witness for C5 (amended): instantiated on the all-success fixture run. -/
theorem c5_amended_write_order_witness :
    (analyze_video_task envOk testStore [] 1).writes.head?
        = some .processingWrite ∧
    List.Chain' (fun a b => writeRank a < writeRank b)
        (analyze_video_task envOk testStore [] 1).writes ∧
    ((analyze_video_task envOk testStore [] 1).writes.getLast?).map
        WriteEvent.isTerminal = some true :=
  c5_amended_write_order envOk testStore [] 1 testJob (by decide)

/-- Claim C3 (confirmed): for every job the orchestrator picks up in the
pending state, the processing write is the first committed write (before any
stage effect), and the observable status sequence is exactly
pending → processing → completed or pending → processing → failed — no
transition out of a terminal state and no other sequence. -/
theorem c3_status_transitions (env : Env) (store0 : Store) (fs0 : Fs)
    (job_id : Nat) (job0 : Job) (h0 : store0.get job_id = some job0)
    (hp : job0.status = .pending) :
    (analyze_video_task env store0 fs0 job_id).writes.head?
        = some .processingWrite ∧
    (statusTrace job0.status (analyze_video_task env store0 fs0 job_id).writes
        = [.pending, .processing, .completed] ∨
     statusTrace job0.status (analyze_video_task env store0 fs0 job_id).writes
        = [.pending, .processing, .failed]) := by
  cases h1 : env.video_info with
  | error e =>
      simp [analyze_video_task, h0, h1, failHandler, statusTrace, writeStatus, hp]
  | ok info =>
    cases h2 : env.download_vid with
    | error e =>
        simp [analyze_video_task, h0, h1, h2, failHandler, statusTrace,
              writeStatus, hp]
    | ok vid =>
      cases h3 : env.ffmpeg_ok with
      | false =>
          simp [analyze_video_task, h0, h1, h2, h3, failHandler, convert_to_wav,
                statusTrace, writeStatus, hp]
      | true =>
        cases h4 : env.whisper with
        | error e =>
            simp [analyze_video_task, h0, h1, h2, h3, h4, failHandler,
                  convert_to_wav, WhisperTranscriber.transcribe,
                  WhisperTranscriber.init, WhisperTranscriber.load_model,
                  statusTrace, writeStatus, hp]
        | ok raw =>
          cases h5 : env.analysis with
          | error e =>
              simp [analyze_video_task, h0, h1, h2, h3, h4, h5, failHandler,
                    convert_to_wav, WhisperTranscriber.transcribe,
                    WhisperTranscriber.init, WhisperTranscriber.load_model,
                    WhisperTranscriber.unload_model, statusTrace, writeStatus, hp]
          | ok ana =>
              simp [analyze_video_task, h0, h1, h2, h3, h4, h5, convert_to_wav,
                    WhisperTranscriber.transcribe, WhisperTranscriber.init,
                    WhisperTranscriber.load_model, WhisperTranscriber.unload_model,
                    statusTrace, writeStatus, hp]

/-- Witness for C3: instantiated on the transcription-failure fixture run,
whose status sequence is pending → processing → failed. -/
theorem c3_status_transitions_witness :
    (analyze_video_task envWhisperFail testStore [] 1).writes.head?
        = some .processingWrite ∧
    (statusTrace testJob.status (analyze_video_task envWhisperFail testStore [] 1).writes
        = [.pending, .processing, .completed] ∨
     statusTrace testJob.status (analyze_video_task envWhisperFail testStore [] 1).writes
        = [.pending, .processing, .failed]) :=
  c3_status_transitions envWhisperFail testStore [] 1 testJob (by decide) (by decide)

/-- Claim C2 (confirmed): for a job created pending with null result and null
error message, the terminal record an execution leaves satisfies: the status
is completed or failed, `result` is populated iff the status is completed,
and `error_message` is populated iff the status is failed — never both and
never neither. -/
theorem c2_terminal_result_error_iff (env : Env) (store0 : Store) (fs0 : Fs)
    (job_id : Nat) (job0 : Job) (h0 : store0.get job_id = some job0)
    (hr : job0.result = none) (he : job0.error_message = none) :
    ∃ j, (analyze_video_task env store0 fs0 job_id).store.get job_id = some j ∧
      (j.status = .completed ∨ j.status = .failed) ∧
      (j.result ≠ none ↔ j.status = .completed) ∧
      (j.error_message ≠ none ↔ j.status = .failed) := by
  cases h1 : env.video_info with
  | error e =>
      simp [analyze_video_task, h0, h1, failHandler, store_get_update_self, hr, he]
  | ok info =>
    cases h2 : env.download_vid with
    | error e =>
        simp [analyze_video_task, h0, h1, h2, failHandler, store_get_update_self,
              hr, he]
    | ok vid =>
      cases h3 : env.ffmpeg_ok with
      | false =>
          simp [analyze_video_task, h0, h1, h2, h3, failHandler, convert_to_wav,
                store_get_update_self, hr, he]
      | true =>
        cases h4 : env.whisper with
        | error e =>
            simp [analyze_video_task, h0, h1, h2, h3, h4, failHandler,
                  convert_to_wav, WhisperTranscriber.transcribe,
                  WhisperTranscriber.init, WhisperTranscriber.load_model,
                  store_get_update_self, hr, he]
        | ok raw =>
          cases h5 : env.analysis with
          | error e =>
              simp [analyze_video_task, h0, h1, h2, h3, h4, h5, failHandler,
                    convert_to_wav, WhisperTranscriber.transcribe,
                    WhisperTranscriber.init, WhisperTranscriber.load_model,
                    WhisperTranscriber.unload_model, store_get_update_self, hr, he]
          | ok ana =>
              simp [analyze_video_task, h0, h1, h2, h3, h4, h5, convert_to_wav,
                    WhisperTranscriber.transcribe, WhisperTranscriber.init,
                    WhisperTranscriber.load_model, WhisperTranscriber.unload_model,
                    store_get_update_self, hr, he]

/-- Witness for C2: instantiated on the all-success fixture run. -/
theorem c2_terminal_result_error_iff_witness :
    ∃ j, (analyze_video_task envOk testStore [] 1).store.get 1 = some j ∧
      (j.status = .completed ∨ j.status = .failed) ∧
      (j.result ≠ none ↔ j.status = .completed) ∧
      (j.error_message ≠ none ↔ j.status = .failed) :=
  c2_terminal_result_error_iff envOk testStore [] 1 testJob (by decide) (by decide)
    (by decide)

/-- Whether an external call outcome is a success. -/
def exceptOk {α : Type} : Except String α → Bool
  | .ok _ => true
  | .error _ => false

/-- Claim C6 (confirmed): when the metadata fetch succeeds and a strictly
later stage fails, the fetched title is committed as the second write —
immediately after the metadata fetch, long before completion — and the
terminal failed record still carries that fetched title: the failure handler
touches only status, error_message and completed_at. -/
theorem c6_title_retained (env : Env) (store0 : Store) (fs0 : Fs)
    (job_id : Nat) (job0 : Job) (info : VideoInfo)
    (h0 : store0.get job_id = some job0)
    (h1 : env.video_info = .ok info)
    (hfail : exceptOk env.download_vid = false ∨ env.ffmpeg_ok = false ∨
             exceptOk env.whisper = false ∨ exceptOk env.analysis = false) :
    ((analyze_video_task env store0 fs0 job_id).writes)[1]?
        = some (.titleWrite info.title) ∧
    ∃ j, (analyze_video_task env store0 fs0 job_id).store.get job_id = some j ∧
      j.status = .failed ∧ j.video_title = info.title := by
  cases h2 : env.download_vid with
  | error e =>
      simp [analyze_video_task, h0, h1, h2, failHandler, store_get_update_self]
  | ok vid =>
    cases h3 : env.ffmpeg_ok with
    | false =>
        simp [analyze_video_task, h0, h1, h2, h3, failHandler, convert_to_wav,
              store_get_update_self]
    | true =>
      cases h4 : env.whisper with
      | error e =>
          simp [analyze_video_task, h0, h1, h2, h3, h4, failHandler, convert_to_wav,
                WhisperTranscriber.transcribe, WhisperTranscriber.init,
                WhisperTranscriber.load_model, store_get_update_self]
      | ok raw =>
        cases h5 : env.analysis with
        | error e =>
            simp [analyze_video_task, h0, h1, h2, h3, h4, h5, failHandler,
                  convert_to_wav, WhisperTranscriber.transcribe,
                  WhisperTranscriber.init, WhisperTranscriber.load_model,
                  WhisperTranscriber.unload_model, store_get_update_self]
        | ok ana =>
            rw [h2, h3, h4, h5] at hfail
            simp [exceptOk] at hfail

/-- Witness for C6: instantiated on the transcription-failure fixture run. -/
theorem c6_title_retained_witness :
    ((analyze_video_task envWhisperFail testStore [] 1).writes)[1]?
        = some (.titleWrite testInfo.title) ∧
    ∃ j, (analyze_video_task envWhisperFail testStore [] 1).store.get 1 = some j ∧
      j.status = .failed ∧ j.video_title = testInfo.title :=
  c6_title_retained envWhisperFail testStore [] 1 testJob testInfo (by decide)
    (by decide) (by decide)

/-- The result payload the code assembles on the success path: the dict of
tasks.py lines 125-134, with the transcription sub-dict taken from the fields
`WhisperTranscriber.transcribe` produced (text, language defaulted to
"unknown", segments defaulted to []). -/
def assembledPayload (env : Env) (info : VideoInfo) (raw : WhisperRaw)
    (ana : Analysis) : FinalResult :=
  { video_info := info
    transcription :=
      { text := raw.text
        language := raw.language.getD "unknown"
        segments := raw.segments }
    analysis := ana
    processed_at := env.processed_now }

/-- Claim C8 (confirmed): on an all-success execution the persisted result is
exactly the payload `{video_info, transcription{text, language, segments},
analysis, processed_at}`; result, status=completed and completed_at become
durable in one single commit — the last write of the run, committed before
any artifact deletion is attempted (the cleanup block performs no store
write) — and the same payload is the task's return value. -/
theorem c8_success_payload (env : Env) (store0 : Store) (fs0 : Fs)
    (job_id : Nat) (job0 : Job) (info : VideoInfo) (vid : String)
    (raw : WhisperRaw) (ana : Analysis)
    (h0 : store0.get job_id = some job0)
    (h1 : env.video_info = .ok info)
    (h2 : env.download_vid = .ok vid)
    (h3 : env.ffmpeg_ok = true)
    (h4 : env.whisper = .ok raw)
    (h5 : env.analysis = .ok ana) :
    (analyze_video_task env store0 fs0 job_id).store.get job_id
      = some { job0 with
          video_title := info.title
          status := .completed
          result := some (assembledPayload env info raw ana)
          completed_at := some env.completed_now } ∧
    (analyze_video_task env store0 fs0 job_id).writes.getLast?
      = some (.completedWrite (assembledPayload env info raw ana) env.completed_now) ∧
    (analyze_video_task env store0 fs0 job_id).retval
      = .ok (assembledPayload env info raw ana) := by
  simp [analyze_video_task, h0, h1, h2, h3, h4, h5, convert_to_wav,
        WhisperTranscriber.transcribe, WhisperTranscriber.init,
        WhisperTranscriber.load_model, WhisperTranscriber.unload_model,
        store_get_update_self, assembledPayload]

/-- Witness for C8: instantiated on the all-success fixture run. -/
theorem c8_success_payload_witness :
    (analyze_video_task envOk testStore [] 1).store.get 1
      = some { testJob with
          video_title := testInfo.title
          status := .completed
          result := some (assembledPayload envOk testInfo testRaw testAnalysis)
          completed_at := some envOk.completed_now } ∧
    (analyze_video_task envOk testStore [] 1).writes.getLast?
      = some (.completedWrite (assembledPayload envOk testInfo testRaw testAnalysis)
              envOk.completed_now) ∧
    (analyze_video_task envOk testStore [] 1).retval
      = .ok (assembledPayload envOk testInfo testRaw testAnalysis) :=
  c8_success_payload envOk testStore [] 1 testJob testInfo "vid01" testRaw
    testAnalysis (by decide) (by decide) (by decide) (by decide) (by decide)
    (by decide)

/-- Claim C10 (confirmed): when an `os.remove` raises during the success-path
cleanup — here the removal of the downloaded audio file, so no file gets
deleted at all — the job record is unaffected: it keeps status completed, the
assembled result and completed_at; the run's writes are exactly the three
success-path commits (the terminal commit precedes cleanup and no failed
write is ever appended), and the deletion error is suppressed, so the task
still returns the payload instead of re-raising. -/
theorem c10_cleanup_error_keeps_record (env : Env) (store0 : Store) (fs0 : Fs)
    (job_id : Nat) (job0 : Job) (info : VideoInfo) (vid : String)
    (raw : WhisperRaw) (ana : Analysis)
    (h0 : store0.get job_id = some job0)
    (h1 : env.video_info = .ok info)
    (h2 : env.download_vid = .ok vid)
    (h3 : env.ffmpeg_ok = true)
    (h4 : env.whisper = .ok raw)
    (h5 : env.analysis = .ok ana)
    (hrr : env.remove_raises (audioFilename env.temp_dir vid) = true) :
    (analyze_video_task env store0 fs0 job_id).store.get job_id
      = some { job0 with
          video_title := info.title
          status := .completed
          result := some (assembledPayload env info raw ana)
          completed_at := some env.completed_now } ∧
    (analyze_video_task env store0 fs0 job_id).writes
      = [.processingWrite, .titleWrite info.title,
         .completedWrite (assembledPayload env info raw ana) env.completed_now] ∧
    (analyze_video_task env store0 fs0 job_id).retval
      = .ok (assembledPayload env info raw ana) ∧
    (analyze_video_task env store0 fs0 job_id).fs
      = wavFilename (audioFilename env.temp_dir vid)
          :: audioFilename env.temp_dir vid :: fs0 := by
  refine ⟨?_, ?_, ?_, ?_⟩ <;>
    simp [analyze_video_task, h0, h1, h2, h3, h4, h5, convert_to_wav,
          WhisperTranscriber.transcribe, WhisperTranscriber.init,
          WhisperTranscriber.load_model, WhisperTranscriber.unload_model,
          store_get_update_self, assembledPayload, cleanupFiles, hrr]

/-- Environment in which every call succeeds but removing the downloaded
audio file raises. -/
def envCleanupFail : Env :=
  { envOk with remove_raises := fun p => p == "/app/temp/vid01.mp3" }

/-- Witness for C10: instantiated on the fixture run whose audio deletion
raises. -/
theorem c10_cleanup_error_keeps_record_witness :
    (analyze_video_task envCleanupFail testStore [] 1).store.get 1
      = some { testJob with
          video_title := testInfo.title
          status := .completed
          result := some (assembledPayload envCleanupFail testInfo testRaw testAnalysis)
          completed_at := some envCleanupFail.completed_now } ∧
    (analyze_video_task envCleanupFail testStore [] 1).writes
      = [.processingWrite, .titleWrite testInfo.title,
         .completedWrite (assembledPayload envCleanupFail testInfo testRaw testAnalysis)
           envCleanupFail.completed_now] ∧
    (analyze_video_task envCleanupFail testStore [] 1).retval
      = .ok (assembledPayload envCleanupFail testInfo testRaw testAnalysis) ∧
    (analyze_video_task envCleanupFail testStore [] 1).fs
      = wavFilename (audioFilename envCleanupFail.temp_dir "vid01")
          :: audioFilename envCleanupFail.temp_dir "vid01" :: [] :=
  c10_cleanup_error_keeps_record envCleanupFail testStore [] 1 testJob testInfo
    "vid01" testRaw testAnalysis (by decide) (by decide) (by decide) (by decide)
    (by decide) (by decide) (by decide)

end YCC
